import Mathlib

/-
  Shallow embedding of the meterup/generate-cert certificate-issuance engine.

  The embedding follows lib/cert.go (the v0.2 library: `Config`, `Generate`,
  `genCert`) and, for the claims that cite it, the v0.3 variant found in the
  repository (`GenerateFromRoot` with its four-argument `genCert`).

  External collaborators of the engine (crypto/rand, ecdsa key generation,
  x509.CreateCertificate, file reads, net.ParseIP) are modelled as an `Env`
  of oracles consumed in call order; the engine itself is translated
  statement by statement. Machine-level byte strings (DER, PEM) are modelled
  symbolically: a DER payload remembers the structure it encodes, and a PEM
  rendering remembers the block it armors, so that decoding is the exact
  inverse of encoding, as in the Go standard library for well-formed input.
-/

namespace GenCert

/-- Go `time.Duration`: a signed number of nanoseconds. -/
abbrev Duration := Int

/-- An instant, as a signed nanosecond count (Go `time.Time`, abstracted). -/
abbrev Time := Int

/-- Go `time.Hour` in nanoseconds. -/
def hour : Duration := 3600 * 1000000000

/-- The default validity substituted by `Generate` for a zero duration:
`365 * 24 * time.Hour` (lib/cert.go lines 61-66). -/
def defaultValidity : Duration := 365 * 24 * hour

/-- A parsed IP address (Go `net.IP`), abstracted to its byte form. -/
abbrev IPAddr := List Nat

/-- The algorithm of a parsed private key; Go distinguishes these by the
dynamic type returned by `x509.ParsePKCS8PrivateKey`. -/
inductive KeyAlgo where
  | ecdsa
  | rsa
  | ed25519
  | other
deriving DecidableEq, Repr

/-- A private key: an abstract identifier plus its algorithm. The public key
of a keypair is identified by the same id. -/
structure PrivKey where
  id : Nat
  algo : KeyAlgo
deriving DecidableEq, Repr

/-- Go `x509.ExtKeyUsage` values used by this program. -/
inductive ExtKeyUsage where
  | serverAuth
  | clientAuth
deriving DecidableEq, Repr

/-- Go `x509.KeyUsageDigitalSignature` (bit 0). -/
def kuDigitalSignature : Nat := 1

/-- Go `x509.KeyUsageKeyEncipherment` (bit 2). -/
def kuKeyEncipherment : Nat := 4

/-- Go `x509.KeyUsageCertSign` (bit 5). -/
def kuCertSign : Nat := 32

/-- The fields of Go `x509.Certificate` that this program reads or writes. -/
structure Certificate where
  isCA : Bool
  serialNumber : Nat
  subjectOrg : List String
  subjectCommonName : String
  subjectSerialNumber : String
  notBefore : Time
  notAfter : Time
  keyUsage : Nat
  extKeyUsage : List ExtKeyUsage
  basicConstraintsValid : Bool
  dnsNames : List String
  ipAddresses : List IPAddr
deriving DecidableEq, Repr

/-- The content of the DER bytes produced by `x509.CreateCertificate`:
the to-be-signed template fields, the issuer (parent) serial number, the
subject public key, and the key that signed it. -/
structure DerCert where
  tbs : Certificate
  issuerSerial : Nat
  subjectPubKey : Nat
  signedBy : Nat
deriving DecidableEq, Repr

/-- A DER-encoded payload, remembered symbolically. -/
inductive Der where
  | cert : DerCert → Der
  | pkcs8 : PrivKey → Der
  | sec1 : PrivKey → Der
  | junk : Nat → Der
deriving DecidableEq, Repr

/-- Go `pem.Block`: a type tag plus DER bytes. -/
structure Block where
  type : String
  bytes : Der
deriving DecidableEq, Repr

/-- A byte string as this program sees one: arbitrary non-PEM junk, the PEM
armoring of a block, or bare DER bytes (the reuse path stores `block.Bytes`,
which are DER, directly into the `...Bytes` fields). -/
inductive Bytes where
  | junk : Nat → Bytes
  | pem : Block → Bytes
  | der : Der → Bytes
deriving DecidableEq, Repr

/-- Go `pem.Encode` into a fresh buffer: renders the block's armored form. -/
def pemEncode (b : Block) : Bytes := .pem b

/-- Go `pem.Decode`: recovers the first armored block, or `none`. -/
def pemDecode : Bytes → Option Block
  | .pem b => some b
  | _ => none

/-- Go `x509.ParseCertificate` on DER bytes. -/
def parseCertificate : Der → Except String Certificate
  | .cert d => .ok d.tbs
  | _ => .error "x509: malformed certificate"

/-- Go `x509.ParsePKCS8PrivateKey` on DER bytes. -/
def parsePKCS8PrivateKey : Der → Except String PrivKey
  | .pkcs8 k => .ok k
  | _ => .error "x509: failed to parse private key (use ParsePKCS8PrivateKey instead for this key format)"

/-- Go `x509.MarshalPKCS8PrivateKey` on an ECDSA key (total for such keys). -/
def marshalPKCS8PrivateKey (k : PrivKey) : Der := .pkcs8 k

/-- Go `x509.MarshalECPrivateKey` (SEC1 form, total for ECDSA keys). -/
def marshalECPrivateKey (k : PrivKey) : Der := .sec1 k

/-- lib/cert.go `Cert`: the typed blocks and their rendered bytes. -/
structure Cert where
  Private : Block
  Public : Block
  PrivateBytes : Bytes
  PublicBytes : Bytes
deriving DecidableEq, Repr

/-- lib/cert.go `Certs`. `Root` is a nullable pointer in Go; the v0.3
`GenerateFromRoot` leaves it nil, so it is an `Option` here. -/
structure Certs where
  Root : Option Cert
  Leaf : Cert
  Client : Cert
deriving DecidableEq, Repr

/-- lib/cert.go `Config` (v0.2). Durations use Go's zero-value convention:
`0` means "not set". Empty string means "path not set". -/
structure Config where
  Hosts : List String
  Org : String
  LeafValidFor : Duration
  RootValidFor : Duration
  RootCAPrivateKey : String
  RootCACert : String
deriving DecidableEq, Repr

/-- The v0.3 variant's `Config` (src/unnamed/part_000). -/
structure ConfigV3 where
  Hosts : List String
  Org : String
  ValidFor : Duration
  ClientCommonName : String
deriving DecidableEq, Repr

/-- The outcome of a Go function that returns `(value, error)` but may also
abort the whole process through `log.Fatalf`. `ret v e` is a normal return
with (nullable) value and (nullable) error; `fatal` never returns. -/
inductive GoResult (α : Type) where
  | ret : Option α → Option String → GoResult α
  | fatal : String → GoResult α
deriving DecidableEq, Repr

/-- Call counters for the external collaborators, threaded through the
engine: `rand.Int` draws, `ecdsa.GenerateKey` calls,
`x509.CreateCertificate` calls, and `x509.ParsePKCS8PrivateKey` calls. -/
structure Counters where
  nRand : Nat
  nKey : Nat
  nCreate : Nat
  nParseKey : Nat
deriving DecidableEq, Repr

/-- The environment of external collaborators, indexed by call number where
the collaborator is stateful (the process-wide random source). -/
structure Env where
  randInt : Nat → Except String Nat
  genKey : Nat → Except String Nat
  createCert : Nat → Option String
  readFile : String → Except String Bytes
  parseIP : String → Option IPAddr

/-- The host-partitioning loop of `Generate` (lib/cert.go lines 113-121):
entries that parse as IPs are appended, in order, to the IP list; the rest,
in order, to the DNS list. -/
def partitionHosts (parseIP : String → Option IPAddr) : List String → List String × List IPAddr
  | [] => ([], [])
  | h :: t =>
    let r := partitionHosts parseIP t
    match parseIP h with
    | some ip => (r.1, ip :: r.2)
    | none => (h :: r.1, r.2)

/-- The certificate+key artifact assembled by `genCert` on success: the DER
certificate wrapped as a "CERTIFICATE" block, the PKCS#8 key as a
"PRIVATE KEY" block, and each block's PEM rendering. -/
def mkIssued (tbs : Certificate) (issuerSerial : Nat) (key : PrivKey) (signerId : Nat) : Cert :=
  let pub : Block := ⟨"CERTIFICATE", .cert ⟨tbs, issuerSerial, key.id, signerId⟩⟩
  let priv : Block := ⟨"PRIVATE KEY", marshalPKCS8PrivateKey key⟩
  ⟨priv, pub, pemEncode priv, pemEncode pub⟩

/-- lib/cert.go `genCert` (lines 209-246). `samePtr` models the Go pointer
equality `leaf == parent` (true only for the self-signed root call). A nil
signer with distinct templates would dereference nil inside
`x509.CreateCertificate`; that unreachable case is modelled as `fatal`. -/
def genCert (env : Env) (c : Counters) (leaf parent : Certificate) (samePtr : Bool)
    (signingKey : Option PrivKey) : Counters × GoResult (Cert × PrivKey) :=
  match env.genKey c.nKey with
  | .error e => ({c with nKey := c.nKey + 1}, .ret none (some e))
  | .ok kid =>
    let key : PrivKey := ⟨kid, .ecdsa⟩
    let c1 : Counters := {c with nKey := c.nKey + 1}
    if samePtr && signingKey.isSome then
      (c1, .ret none (some "signing key must be nil when generating root cert"))
    else
      match (if samePtr then some key else signingKey) with
      | none => (c1, .fatal "runtime error: invalid memory address or nil pointer dereference")
      | some signer =>
        match env.createCert c1.nCreate with
        | some e => ({c1 with nCreate := c1.nCreate + 1}, .ret none (some ("Failed to create certificate: " ++ e)))
        | none =>
          ({c1 with nCreate := c1.nCreate + 1},
           .ret (some (mkIssued leaf parent.serialNumber key signer.id, key)) none)

/-- The leaf (server) template of `Generate` (lib/cert.go lines 75-90),
including the SANs appended by the host loop. -/
def mkLeafTemplate (now : Time) (org : String) (serial : Nat) (leafNotAfter : Time)
    (hostSplit : List String × List IPAddr) : Certificate :=
  { isCA := false
    serialNumber := serial
    subjectOrg := [org]
    subjectCommonName := ""
    subjectSerialNumber := toString serial
    notBefore := now
    notAfter := leafNotAfter
    keyUsage := kuDigitalSignature
    extKeyUsage := [.serverAuth]
    basicConstraintsValid := true
    dnsNames := hostSplit.1
    ipAddresses := hostSplit.2 }

/-- The client template of `Generate` (lib/cert.go lines 96-111). -/
def mkClientTemplate (now : Time) (org : String) (serial : Nat) (leafNotAfter : Time)
    (hostSplit : List String × List IPAddr) : Certificate :=
  { isCA := false
    serialNumber := serial
    subjectOrg := [org]
    subjectCommonName := ""
    subjectSerialNumber := toString serial
    notBefore := now
    notAfter := leafNotAfter
    keyUsage := kuDigitalSignature
    extKeyUsage := [.clientAuth]
    basicConstraintsValid := true
    dnsNames := hostSplit.1
    ipAddresses := hostSplit.2 }

/-- The root CA template of `Generate` (lib/cert.go lines 132-148). -/
def mkRootTemplate (now : Time) (org : String) (serial : Nat) (rootNotAfter : Time) : Certificate :=
  { isCA := true
    serialNumber := serial
    subjectOrg := [org]
    subjectCommonName := ""
    subjectSerialNumber := toString serial
    notBefore := now
    notAfter := rootNotAfter
    keyUsage := kuDigitalSignature ||| kuCertSign
    extKeyUsage := [.serverAuth, .clientAuth]
    basicConstraintsValid := true
    dnsNames := []
    ipAddresses := [] }

/-- The root-resolution section of `Generate` (lib/cert.go lines 123-193):
either mint a fresh self-signed CA, or load certificate and key from disk.
Returns the root artifact, the signing key, and the parent template. -/
def resolveRoot (env : Env) (c : Counters) (now : Time) (cfg : Config)
    (rootValidFor : Duration) : Counters × GoResult (Cert × PrivKey × Certificate) :=
  if cfg.RootCAPrivateKey = "" then
    match env.randInt c.nRand with
    | .error e => ({c with nRand := c.nRand + 1}, .ret none (some ("failed to generate serial number: " ++ e)))
    | .ok serialNumber =>
      let c1 : Counters := {c with nRand := c.nRand + 1}
      let rootTemplate := mkRootTemplate now cfg.Org serialNumber (now + rootValidFor)
      match genCert env c1 rootTemplate rootTemplate true none with
      | (c2, .ret (some (root, key)) none) => (c2, .ret (some (root, key, rootTemplate)) none)
      | (c2, .ret _ e) => (c2, .ret none e)
      | (c2, .fatal e) => (c2, .fatal e)
  else
    match env.readFile cfg.RootCACert with
    | .error e => (c, .ret none (some e))
    | .ok certdata =>
      match pemDecode certdata with
      | none => (c, .ret none (some ("could not decode " ++ cfg.RootCACert ++ " as PEM encoded CA certificate")))
      | some certBlock =>
        match parseCertificate certBlock.bytes with
        | .error e => (c, .ret none (some e))
        | .ok rootTemplate =>
          match env.readFile cfg.RootCAPrivateKey with
          | .error e => (c, .ret none (some e))
          | .ok keydata =>
            match pemDecode keydata with
            | none => (c, .ret none (some ("could not decode " ++ cfg.RootCAPrivateKey ++ " as PEM encoded CA certificate")))
            | some keyBlock =>
              let c1 : Counters := {c with nParseKey := c.nParseKey + 1}
              match parsePKCS8PrivateKey keyBlock.bytes with
              | .error e => (c1, .ret none (some e))
              | .ok rawKey =>
                if rawKey.algo = .ecdsa then
                  (c1, .ret (some (⟨keyBlock, certBlock, .der keyBlock.bytes, .der certBlock.bytes⟩,
                                   rawKey, rootTemplate)) none)
                else
                  (c1, .ret none (some "could not parse private key as a *ecdsa.PrivateKey, use other parsing format"))

/-- The final two `genCert` calls of `Generate` (lib/cert.go lines 194-206):
the leaf and client are signed by the resolved root key against the resolved
parent template. -/
def finishLeaves (env : Env) (c : Counters) (root : Cert) (key : PrivKey)
    (rootTemplate leafTemplate clientTemplate : Certificate) : Counters × GoResult Certs :=
  match genCert env c leafTemplate rootTemplate false (some key) with
  | (c1, .ret (some (leaf, _)) none) =>
    match genCert env c1 clientTemplate rootTemplate false (some key) with
    | (c2, .ret (some (client, _)) none) => (c2, .ret (some ⟨some root, leaf, client⟩) none)
    | (c2, .ret _ e) => (c2, .ret none e)
    | (c2, .fatal e) => (c2, .fatal e)
  | (c1, .ret _ e) => (c1, .ret none e)
  | (c1, .fatal e) => (c1, .fatal e)

/-- lib/cert.go `Generate` (lines 51-207), with `now` standing for
`time.Now().UTC()`. Validation first; then the leaf and client serial draws
(whose failure calls `log.Fatalf`); then template construction and host
partitioning; then root resolution and the two leaf signings. -/
def Generate (env : Env) (now : Time) (cfg : Config) : Counters × GoResult Certs :=
  let c0 : Counters := ⟨0, 0, 0, 0⟩
  if cfg.RootCACert ≠ "" ∧ cfg.RootCAPrivateKey = "" then
    (c0, .ret none (some "gencert: must set both RootCACert and RootCAPrivateKey, or neither"))
  else if cfg.RootCACert = "" ∧ cfg.RootCAPrivateKey ≠ "" then
    (c0, .ret none (some "gencert: must set both RootCACert and RootCAPrivateKey, or neither"))
  else if cfg.RootCACert ≠ "" ∧ cfg.RootValidFor ≠ 0 then
    (c0, .ret none (some "gencert: cannot set RootValidFor when loading root cert from disk"))
  else
    let rootValidFor := if cfg.RootValidFor = 0 then defaultValidity else cfg.RootValidFor
    let leafValidFor := if cfg.LeafValidFor = 0 then defaultValidity else cfg.LeafValidFor
    let leafNotAfter := now + leafValidFor
    match env.randInt 0 with
    | .error e => (⟨1, 0, 0, 0⟩, .fatal ("failed to generate serial number: " ++ e))
    | .ok leafSerialNumber =>
      match env.randInt 1 with
      | .error e => (⟨2, 0, 0, 0⟩, .fatal ("failed to generate serial number: " ++ e))
      | .ok clientSerialNumber =>
        let hostSplit := partitionHosts env.parseIP cfg.Hosts
        let leafTemplate := mkLeafTemplate now cfg.Org leafSerialNumber leafNotAfter hostSplit
        let clientTemplate := mkClientTemplate now cfg.Org clientSerialNumber leafNotAfter hostSplit
        match resolveRoot env ⟨2, 0, 0, 0⟩ now cfg rootValidFor with
        | (c1, .ret (some (root, key, rootTemplate)) none) =>
          finishLeaves env c1 root key rootTemplate leafTemplate clientTemplate
        | (c1, .ret _ e) => (c1, .ret none e)
        | (c1, .fatal e) => (c1, .fatal e)

/-- The v0.3 variant's `genCert` (src/unnamed/part_000 lines 164-190): the
subject key is passed in, the key is serialized in SEC1 form with the
"EC PRIVATE KEY" tag, and there is no self-sign pointer check. -/
def genCertV3 (env : Env) (c : Counters) (leaf parent : Certificate) (key : PrivKey)
    (signer : PrivKey) : Counters × GoResult Cert :=
  match env.createCert c.nCreate with
  | some e => ({c with nCreate := c.nCreate + 1}, .ret none (some ("Failed to create certificate: " ++ e)))
  | none =>
    let pub : Block := ⟨"CERTIFICATE", .cert ⟨leaf, parent.serialNumber, key.id, signer.id⟩⟩
    let priv : Block := ⟨"EC PRIVATE KEY", marshalECPrivateKey key⟩
    ({c with nCreate := c.nCreate + 1},
     .ret (some ⟨priv, pub, pemEncode priv, pemEncode pub⟩) none)

/-- The v0.3 leaf template (src/unnamed/part_000 lines 95-109). -/
def mkLeafTemplateV3 (now : Time) (org : String) (serial : Nat) (notAfter : Time)
    (hostSplit : List String × List IPAddr) : Certificate :=
  { isCA := false
    serialNumber := serial
    subjectOrg := [org]
    subjectCommonName := ""
    subjectSerialNumber := ""
    notBefore := now
    notAfter := notAfter
    keyUsage := kuKeyEncipherment ||| kuDigitalSignature
    extKeyUsage := [.serverAuth]
    basicConstraintsValid := true
    dnsNames := hostSplit.1
    ipAddresses := hostSplit.2 }

/-- The v0.3 client template (src/unnamed/part_000 lines 119-134), carrying
the configured client common name. -/
def mkClientTemplateV3 (now : Time) (org commonName : String) (serial : Nat) (notAfter : Time)
    (hostSplit : List String × List IPAddr) : Certificate :=
  { isCA := false
    serialNumber := serial
    subjectOrg := [org]
    subjectCommonName := commonName
    subjectSerialNumber := ""
    notBefore := now
    notAfter := notAfter
    keyUsage := kuKeyEncipherment ||| kuDigitalSignature
    extKeyUsage := [.clientAuth]
    basicConstraintsValid := true
    dnsNames := hostSplit.1
    ipAddresses := hostSplit.2 }

/-- The v0.3 `GenerateFromRoot` (src/unnamed/part_000 lines 86-162): builds
the leaf and client templates against a caller-supplied root template and
key and signs both with the root key; the returned bundle has no Root. -/
def GenerateFromRoot (env : Env) (now : Time) (cfg : ConfigV3)
    (rootTemplate : Certificate) (rootKey : PrivKey) : Counters × GoResult Certs :=
  match env.randInt 0 with
  | .error e => (⟨1, 0, 0, 0⟩, .fatal ("failed to generate serial number: " ++ e))
  | .ok leafSerialNumber =>
    match env.genKey 0 with
    | .error e => (⟨1, 1, 0, 0⟩, .ret none (some e))
    | .ok lk =>
      match env.randInt 1 with
      | .error e => (⟨2, 1, 0, 0⟩, .fatal ("failed to generate serial number: " ++ e))
      | .ok clientSerialNumber =>
        match env.genKey 1 with
        | .error e => (⟨2, 2, 0, 0⟩, .ret none (some e))
        | .ok ck =>
          let leafKey : PrivKey := ⟨lk, .ecdsa⟩
          let clientKey : PrivKey := ⟨ck, .ecdsa⟩
          let notAfter := now + cfg.ValidFor
          let hostSplit := partitionHosts env.parseIP cfg.Hosts
          let leafTemplate := mkLeafTemplateV3 now cfg.Org leafSerialNumber notAfter hostSplit
          let clientTemplate := mkClientTemplateV3 now cfg.Org cfg.ClientCommonName clientSerialNumber notAfter hostSplit
          match genCertV3 env ⟨2, 2, 0, 0⟩ leafTemplate rootTemplate leafKey rootKey with
          | (c1, .ret (some leaf) none) =>
            match genCertV3 env c1 clientTemplate rootTemplate clientKey rootKey with
            | (c2, .ret (some client) none) => (c2, .ret (some ⟨none, leaf, client⟩) none)
            | (c2, .ret _ e) => (c2, .ret none e)
            | (c2, .fatal e) => (c2, .fatal e)
          | (c1, .ret _ e) => (c1, .ret none e)
          | (c1, .fatal e) => (c1, .fatal e)

/-! ### Extractors used to state the claims -/

/-- The DER certificate content retained on an issued artifact. -/
def certDer (c : Cert) : Option DerCert :=
  match c.Public.bytes with
  | .cert d => some d
  | _ => none

/-- The DER content of the bundle's root certificate, when present. -/
def rootDerOf (cs : Certs) : Option DerCert := cs.Root.bind certDer

/-- The DER content of the bundle's leaf certificate. -/
def leafDerOf (cs : Certs) : Option DerCert := certDer cs.Leaf

/-- The DER content of the bundle's client certificate. -/
def clientDerOf (cs : Certs) : Option DerCert := certDer cs.Client

/-- The PEM block loaded from the configured CA certificate file. -/
def loadedCertBlock (env : Env) (cfg : Config) : Option Block :=
  (env.readFile cfg.RootCACert).toOption.bind pemDecode

/-- The PEM block loaded from the configured CA private-key file. -/
def loadedKeyBlock (env : Env) (cfg : Config) : Option Block :=
  (env.readFile cfg.RootCAPrivateKey).toOption.bind pemDecode

/-- The private key parsed from the configured CA private-key file. -/
def loadedKey (env : Env) (cfg : Config) : Option PrivKey :=
  (loadedKeyBlock env cfg).bind (fun b => (parsePKCS8PrivateKey b.bytes).toOption)

/-- The parent template parsed from the configured CA certificate file. -/
def loadedRootTemplate (env : Env) (cfg : Config) : Option Certificate :=
  (loadedCertBlock env cfg).bind (fun b => (parseCertificate b.bytes).toOption)

/-- The leaf/client validity actually applied: the configured duration, or
the 365-day default when the configured one is zero. -/
def effLeafValidFor (cfg : Config) : Duration :=
  if cfg.LeafValidFor = 0 then defaultValidity else cfg.LeafValidFor

/-- The root validity actually applied on the fresh-mint path. -/
def effRootValidFor (cfg : Config) : Duration :=
  if cfg.RootValidFor = 0 then defaultValidity else cfg.RootValidFor

/-- True of an `Except` result that is an error. -/
def isError {ε α : Type} : Except ε α → Bool
  | .error _ => true
  | .ok _ => false

/-! ### Concrete environments and configurations used by the witnesses -/

/-- A fully healthy environment: every random draw and key generation
succeeds with a distinct value, no files exist on disk. -/
def envA : Env :=
  { randInt := fun n => .ok (100 + n)
    genKey := fun n => .ok (200 + n)
    createCert := fun _ => none
    readFile := fun _ => .error "open: no such file or directory"
    parseIP := fun h => if h = "127.0.0.1" then some [127, 0, 0, 1] else none }

/-- A fresh-mint configuration with default durations and no hosts. -/
def cfgA : Config := ⟨[], "o", 0, 0, "", ""⟩

/-- A fresh-mint configuration with one DNS host and one IP host. -/
def cfgHosts : Config := ⟨["example.test", "127.0.0.1"], "Acme Co", 24 * hour, 0, "", ""⟩

/-- An environment whose random source always fails. -/
def envFatal : Env :=
  { randInt := fun _ => .error "entropy source unavailable"
    genKey := fun n => .ok (200 + n)
    createCert := fun _ => none
    readFile := fun _ => .error "open: no such file or directory"
    parseIP := fun _ => none }

/-- The CA certificate template stored on disk in the reuse scenarios. -/
def caTemplateR : Certificate := mkRootTemplate (-5) "ca-org" 77 999999

/-- The PEM certificate block stored in `ca.pem` in the reuse scenarios. -/
def caCertBlockR : Block := ⟨"CERTIFICATE", .cert ⟨caTemplateR, 77, 9, 9⟩⟩

/-- The ECDSA CA key stored in `ca.key` in the healthy reuse scenario. -/
def caKeyR : PrivKey := ⟨9, .ecdsa⟩

/-- The PEM key block stored in `ca.key` in the healthy reuse scenario. -/
def caKeyBlockR : Block := ⟨"PRIVATE KEY", .pkcs8 caKeyR⟩

/-- An environment with a well-formed ECDSA CA on disk. -/
def envReuse : Env :=
  { randInt := fun n => .ok (100 + n)
    genKey := fun n => .ok (200 + n)
    createCert := fun _ => none
    readFile := fun p =>
      if p = "ca.pem" then .ok (.pem caCertBlockR)
      else if p = "ca.key" then .ok (.pem caKeyBlockR)
      else .error "open: no such file or directory"
    parseIP := fun _ => none }

/-- A CA-reuse configuration pointing at the on-disk CA. -/
def cfgReuse : Config := ⟨[], "o", 0, 0, "ca.key", "ca.pem"⟩

/-- An environment whose on-disk CA key is an RSA key in PKCS#8 form. -/
def envRSA : Env :=
  { randInt := fun n => .ok (100 + n)
    genKey := fun n => .ok (200 + n)
    createCert := fun _ => none
    readFile := fun p =>
      if p = "ca.pem" then .ok (.pem caCertBlockR)
      else if p = "ca.key" then .ok (.pem ⟨"PRIVATE KEY", .pkcs8 ⟨7, .rsa⟩⟩)
      else .error "open: no such file or directory"
    parseIP := fun _ => none }

/-- A configuration with only the CA certificate handle set. -/
def cfgHalf : Config := ⟨[], "o", 0, 0, "", "ca.pem"⟩

/-- A CA-reuse configuration that also sets a root validity. -/
def cfgReuseDur : Config := ⟨[], "o", 0, 24 * hour, "ca.key", "ca.pem"⟩

/-- A v0.3 configuration with a client common name. -/
def cfgV3 : ConfigV3 := ⟨[], "o", 24 * hour, "client.example"⟩

/-! ### Structural predicates and lemmas -/

/-- A result never pairs an error with a value: on a normal error return
the returned value is nil. -/
def NoPartialR {α : Type} : GoResult α → Prop
  | .ret v (some _) => v = none
  | _ => True

/-- The result is not a `log.Fatalf` process abort. -/
def notFatal {α : Type} : GoResult α → Prop
  | .fatal _ => False
  | _ => True

/-- `genCert` never returns a value together with an error. -/
theorem genCert_no_partial (env : Env) (c : Counters) (leaf parent : Certificate)
    (samePtr : Bool) (sk : Option PrivKey) :
    NoPartialR (genCert env c leaf parent samePtr sk).2 := by
  unfold genCert
  cases hk : env.genKey c.nKey with
  | error e => simp [NoPartialR, *]
  | ok kid =>
    cases samePtr <;> cases sk <;>
      cases hc : env.createCert c.nCreate <;> simp [NoPartialR, *]

/-- `genCert` cannot abort the process when it is called the way `Generate`
calls it (self-sign with nil signer, or child-sign with a real signer). -/
theorem genCert_not_fatal (env : Env) (c : Counters) (leaf parent : Certificate)
    (samePtr : Bool) (sk : Option PrivKey) (h : samePtr = true ∨ sk.isSome = true) :
    notFatal (genCert env c leaf parent samePtr sk).2 := by
  unfold genCert
  cases hk : env.genKey c.nKey with
  | error e => simp [notFatal, *]
  | ok kid =>
    cases samePtr <;> cases sk <;>
      cases hc : env.createCert c.nCreate <;> simp_all [notFatal]

/-- `resolveRoot` never returns a value together with an error. -/
theorem resolveRoot_no_partial (env : Env) (c : Counters) (now : Time) (cfg : Config)
    (rv : Duration) : NoPartialR (resolveRoot env c now cfg rv).2 := by
  unfold resolveRoot
  by_cases hfresh : cfg.RootCAPrivateKey = ""
  · rw [if_pos hfresh]
    cases hs : env.randInt c.nRand with
    | error e => simp [NoPartialR, *]
    | ok s =>
      rcases hg : genCert env {c with nRand := c.nRand + 1}
          (mkRootTemplate now cfg.Org s (now + rv))
          (mkRootTemplate now cfg.Org s (now + rv)) true none with ⟨c2, r⟩
      dsimp only
      rw [hg]
      cases r with
      | fatal e => simp [NoPartialR, *]
      | ret v e =>
        rcases v with _ | ⟨root, key⟩ <;> rcases e with _ | e <;> simp [NoPartialR, *]
  · rw [if_neg hfresh]
    cases hf : env.readFile cfg.RootCACert with
    | error e => simp [NoPartialR, *]
    | ok certdata =>
      cases hd : pemDecode certdata with
      | none => simp [NoPartialR, *]
      | some certBlock =>
        cases hp : parseCertificate certBlock.bytes with
        | error e => simp [NoPartialR, *]
        | ok rootTemplate =>
          cases hfk : env.readFile cfg.RootCAPrivateKey with
          | error e => simp [NoPartialR, *]
          | ok keydata =>
            cases hdk : pemDecode keydata with
            | none => simp [NoPartialR, *]
            | some keyBlock =>
              cases hpk : parsePKCS8PrivateKey keyBlock.bytes with
              | error e => simp [NoPartialR, *]
              | ok rawKey =>
                by_cases halgo : rawKey.algo = .ecdsa <;> simp [NoPartialR, *]

/-- `resolveRoot` never aborts the process. -/
theorem resolveRoot_not_fatal (env : Env) (c : Counters) (now : Time) (cfg : Config)
    (rv : Duration) : notFatal (resolveRoot env c now cfg rv).2 := by
  unfold resolveRoot
  by_cases hfresh : cfg.RootCAPrivateKey = ""
  · rw [if_pos hfresh]
    cases hs : env.randInt c.nRand with
    | error e => simp [notFatal, *]
    | ok s =>
      rcases hg : genCert env {c with nRand := c.nRand + 1}
          (mkRootTemplate now cfg.Org s (now + rv))
          (mkRootTemplate now cfg.Org s (now + rv)) true none with ⟨c2, r⟩
      have hnf := genCert_not_fatal env {c with nRand := c.nRand + 1}
          (mkRootTemplate now cfg.Org s (now + rv))
          (mkRootTemplate now cfg.Org s (now + rv)) true none (Or.inl rfl)
      rw [hg] at hnf
      dsimp only
      rw [hg]
      cases r with
      | fatal e => simp [notFatal, *] at hnf
      | ret v e =>
        rcases v with _ | ⟨root, key⟩ <;> rcases e with _ | e <;> simp [notFatal, *]
  · rw [if_neg hfresh]
    cases hf : env.readFile cfg.RootCACert with
    | error e => simp [notFatal, *]
    | ok certdata =>
      cases hd : pemDecode certdata with
      | none => simp [notFatal, *]
      | some certBlock =>
        cases hp : parseCertificate certBlock.bytes with
        | error e => simp [notFatal, *]
        | ok rootTemplate =>
          cases hfk : env.readFile cfg.RootCAPrivateKey with
          | error e => simp [notFatal, *]
          | ok keydata =>
            cases hdk : pemDecode keydata with
            | none => simp [notFatal, *]
            | some keyBlock =>
              cases hpk : parsePKCS8PrivateKey keyBlock.bytes with
              | error e => simp [notFatal, *]
              | ok rawKey =>
                by_cases halgo : rawKey.algo = .ecdsa <;> simp [notFatal, *]

/-- `finishLeaves` never returns a value together with an error. -/
theorem finishLeaves_no_partial (env : Env) (c : Counters) (root : Cert) (key : PrivKey)
    (rt lt ct : Certificate) : NoPartialR (finishLeaves env c root key rt lt ct).2 := by
  unfold finishLeaves
  rcases h1 : genCert env c lt rt false (some key) with ⟨c1, r1⟩
  cases r1 with
  | fatal e => simp [NoPartialR]
  | ret v e =>
    rcases v with _ | ⟨leaf, k⟩ <;> rcases e with _ | e <;> try simp [NoPartialR]
    rcases h2 : genCert env c1 ct rt false (some key) with ⟨c2, r2⟩
    cases r2 with
    | fatal e => simp [NoPartialR]
    | ret v2 e2 =>
      rcases v2 with _ | ⟨client, k2⟩ <;> rcases e2 with _ | e2 <;> simp [NoPartialR]

/-- `finishLeaves` never aborts the process. -/
theorem finishLeaves_not_fatal (env : Env) (c : Counters) (root : Cert) (key : PrivKey)
    (rt lt ct : Certificate) : notFatal (finishLeaves env c root key rt lt ct).2 := by
  unfold finishLeaves
  rcases h1 : genCert env c lt rt false (some key) with ⟨c1, r1⟩
  have hnf1 := genCert_not_fatal env c lt rt false (some key) (Or.inr rfl)
  rw [h1] at hnf1
  cases r1 with
  | fatal e => simp [notFatal] at hnf1
  | ret v e =>
    rcases v with _ | ⟨leaf, k⟩ <;> rcases e with _ | e <;> try simp [notFatal]
    rcases h2 : genCert env c1 ct rt false (some key) with ⟨c2, r2⟩
    have hnf2 := genCert_not_fatal env c1 ct rt false (some key) (Or.inr rfl)
    rw [h2] at hnf2
    cases r2 with
    | fatal e => simp [notFatal] at hnf2
    | ret v2 e2 =>
      rcases v2 with _ | ⟨client, k2⟩ <;> rcases e2 with _ | e2 <;> simp [notFatal]

/-- `Generate` never returns a value together with an error: every error
return carries a nil bundle. -/
theorem generate_no_partial (env : Env) (now : Time) (cfg : Config) :
    NoPartialR (Generate env now cfg).2 := by
  unfold Generate
  split; · simp [NoPartialR]
  split; · simp [NoPartialR]
  split; · simp [NoPartialR]
  cases h0 : env.randInt 0 with
  | error e => simp [NoPartialR]
  | ok ls =>
    cases h1 : env.randInt 1 with
    | error e => simp [NoPartialR]
    | ok cs =>
      rcases hr : resolveRoot env ⟨2, 0, 0, 0⟩ now cfg
          (if cfg.RootValidFor = 0 then defaultValidity else cfg.RootValidFor) with ⟨c1, r⟩
      dsimp only
      rw [hr]
      cases r with
      | fatal e => simp [NoPartialR]
      | ret v e =>
        rcases v with _ | ⟨root, key, rootT⟩ <;> rcases e with _ | e <;>
          first
          | exact finishLeaves_no_partial env c1 root key rootT _ _
          | simp [NoPartialR]

/-- The only way `Generate` can abort the process is a failure of the random
source during the leaf or client serial-number draw. -/
theorem generate_fatal_only_serial (env : Env) (now : Time) (cfg : Config) :
    ∀ e, (Generate env now cfg).2 = .fatal e →
      (isError (env.randInt 0) || isError (env.randInt 1)) = true := by
  intro e
  unfold Generate
  split; · simp
  split; · simp
  split; · simp
  cases h0 : env.randInt 0 with
  | error e0 => simp [isError]
  | ok ls =>
    cases h1 : env.randInt 1 with
    | error e1 => simp [isError]
    | ok cs =>
      rcases hr : resolveRoot env ⟨2, 0, 0, 0⟩ now cfg
          (if cfg.RootValidFor = 0 then defaultValidity else cfg.RootValidFor) with ⟨c1, r⟩
      have hnf := resolveRoot_not_fatal env ⟨2, 0, 0, 0⟩ now cfg
          (if cfg.RootValidFor = 0 then defaultValidity else cfg.RootValidFor)
      rw [hr] at hnf
      dsimp only
      rw [hr]
      cases r with
      | fatal e2 => simp [notFatal] at hnf
      | ret v e2 =>
        rcases v with _ | ⟨root, key, rootT⟩ <;> rcases e2 with _ | e2 <;> try simp
        intro hfl
        have := finishLeaves_not_fatal env c1 root key rootT
          (mkLeafTemplate now cfg.Org ls (now + if cfg.LeafValidFor = 0 then defaultValidity else cfg.LeafValidFor)
            (partitionHosts env.parseIP cfg.Hosts))
          (mkClientTemplate now cfg.Org cs (now + if cfg.LeafValidFor = 0 then defaultValidity else cfg.LeafValidFor)
            (partitionHosts env.parseIP cfg.Hosts))
        rw [hfl] at this
        simp [notFatal] at this

/-! ### Forward-evaluation lemmas -/

/-- A fresh-mint run whose collaborators all succeed returns exactly the
bundle assembled from the oracle draws: a self-signed root from the third
serial and first key, a leaf from the first serial and second key, and a
client from the second serial and third key, both signed by the root key. -/
theorem generate_fresh_eval (env : Env) (now : Time) (cfg : Config)
    (ls cs rs rk lk ck : Nat)
    (hca : cfg.RootCACert = "") (hcak : cfg.RootCAPrivateKey = "")
    (h0 : env.randInt 0 = .ok ls) (h1 : env.randInt 1 = .ok cs) (h2 : env.randInt 2 = .ok rs)
    (hk0 : env.genKey 0 = .ok rk) (hk1 : env.genKey 1 = .ok lk) (hk2 : env.genKey 2 = .ok ck)
    (hc0 : env.createCert 0 = none) (hc1 : env.createCert 1 = none)
    (hc2 : env.createCert 2 = none) :
    Generate env now cfg =
      (⟨3, 3, 3, 0⟩,
       .ret (some ⟨some (mkIssued (mkRootTemplate now cfg.Org rs (now + effRootValidFor cfg)) rs ⟨rk, .ecdsa⟩ rk),
                   mkIssued (mkLeafTemplate now cfg.Org ls (now + effLeafValidFor cfg)
                     (partitionHosts env.parseIP cfg.Hosts)) rs ⟨lk, .ecdsa⟩ rk,
                   mkIssued (mkClientTemplate now cfg.Org cs (now + effLeafValidFor cfg)
                     (partitionHosts env.parseIP cfg.Hosts)) rs ⟨ck, .ecdsa⟩ rk⟩) none) := by
  simp only [Generate, resolveRoot, finishLeaves, genCert, effRootValidFor, effLeafValidFor,
    hca, hcak, h0, h1, h2, hk0, hk1, hk2, hc0, hc1, hc2, mkRootTemplate, ne_eq]
  simp [h0, h1, h2, hk0, hk1, hk2, hc0, hc1, hc2]

/-- A CA-reuse run whose collaborators all succeed returns the loaded CA
material in the Root slot and two leaves signed by the parsed key against
the parsed parent template. -/
theorem generate_reuse_eval (env : Env) (now : Time) (cfg : Config)
    (ls cs lk ck : Nat) (certdata keydata : Bytes) (certBlock keyBlock : Block)
    (rootT : Certificate) (rawKey : PrivKey)
    (hca : cfg.RootCACert ≠ "") (hcak : cfg.RootCAPrivateKey ≠ "") (hrv : cfg.RootValidFor = 0)
    (h0 : env.randInt 0 = .ok ls) (h1 : env.randInt 1 = .ok cs)
    (hrf : env.readFile cfg.RootCACert = .ok certdata)
    (hpd : pemDecode certdata = some certBlock)
    (hpc : parseCertificate certBlock.bytes = .ok rootT)
    (hrfk : env.readFile cfg.RootCAPrivateKey = .ok keydata)
    (hpdk : pemDecode keydata = some keyBlock)
    (hppk : parsePKCS8PrivateKey keyBlock.bytes = .ok rawKey)
    (halgo : rawKey.algo = .ecdsa)
    (hk0 : env.genKey 0 = .ok lk) (hk1 : env.genKey 1 = .ok ck)
    (hc0 : env.createCert 0 = none) (hc1 : env.createCert 1 = none) :
    Generate env now cfg =
      (⟨2, 2, 2, 1⟩,
       .ret (some ⟨some ⟨keyBlock, certBlock, .der keyBlock.bytes, .der certBlock.bytes⟩,
                   mkIssued (mkLeafTemplate now cfg.Org ls (now + effLeafValidFor cfg)
                     (partitionHosts env.parseIP cfg.Hosts)) rootT.serialNumber ⟨lk, .ecdsa⟩ rawKey.id,
                   mkIssued (mkClientTemplate now cfg.Org cs (now + effLeafValidFor cfg)
                     (partitionHosts env.parseIP cfg.Hosts)) rootT.serialNumber ⟨ck, .ecdsa⟩ rawKey.id⟩) none) := by
  simp only [Generate, resolveRoot, finishLeaves, genCert, effLeafValidFor,
    hca, hcak, hrv, h0, h1, hrf, hpd, hpc, hrfk, hpdk, hppk, halgo, hk0, hk1, hc0, hc1, ne_eq]
  simp [hca, hcak, h0, h1, hrf, hpd, hpc, hrfk, hpdk, hppk, halgo, hk0, hk1, hc0, hc1]

/-- A CA-reuse run whose key material parses as a non-ECDSA key fails with
the unsupported-key error before any key is generated or any certificate
is created, returning no bundle. -/
theorem generate_reuse_badkey_eval (env : Env) (now : Time) (cfg : Config)
    (ls cs : Nat) (certdata keydata : Bytes) (certBlock keyBlock : Block)
    (rootT : Certificate) (rawKey : PrivKey)
    (hca : cfg.RootCACert ≠ "") (hcak : cfg.RootCAPrivateKey ≠ "") (hrv : cfg.RootValidFor = 0)
    (h0 : env.randInt 0 = .ok ls) (h1 : env.randInt 1 = .ok cs)
    (hrf : env.readFile cfg.RootCACert = .ok certdata)
    (hpd : pemDecode certdata = some certBlock)
    (hpc : parseCertificate certBlock.bytes = .ok rootT)
    (hrfk : env.readFile cfg.RootCAPrivateKey = .ok keydata)
    (hpdk : pemDecode keydata = some keyBlock)
    (hppk : parsePKCS8PrivateKey keyBlock.bytes = .ok rawKey)
    (halgo : rawKey.algo ≠ .ecdsa) :
    Generate env now cfg =
      (⟨2, 0, 0, 1⟩,
       .ret none (some "could not parse private key as a *ecdsa.PrivateKey, use other parsing format")) := by
  simp only [Generate, resolveRoot, finishLeaves, genCert,
    hca, hcak, hrv, h0, h1, hrf, hpd, hpc, hrfk, hpdk, hppk, halgo, ne_eq]
  simp [hca, hcak, h0, h1, hrf, hpd, hpc, hrfk, hpdk, hppk, halgo]

/-- An invalid configuration (exactly one CA handle set, or a root validity
combined with CA-reuse) is rejected before any collaborator is invoked:
all call counters are zero and no bundle is returned. -/
theorem generate_config_error_eval (env : Env) (now : Time) (cfg : Config)
    (h : (cfg.RootCACert ≠ "" ∧ cfg.RootCAPrivateKey = "") ∨
         (cfg.RootCACert = "" ∧ cfg.RootCAPrivateKey ≠ "") ∨
         (cfg.RootCACert ≠ "" ∧ cfg.RootValidFor ≠ 0)) :
    (Generate env now cfg).1 = ⟨0, 0, 0, 0⟩ ∧
    ((Generate env now cfg).2 =
        .ret none (some "gencert: must set both RootCACert and RootCAPrivateKey, or neither") ∨
     (Generate env now cfg).2 =
        .ret none (some "gencert: cannot set RootValidFor when loading root cert from disk")) := by
  unfold Generate
  rcases h with ⟨h1, h2⟩ | ⟨h1, h2⟩ | ⟨h1, h2⟩
  · rw [if_pos ⟨h1, h2⟩]
    exact ⟨rfl, Or.inl rfl⟩
  · rw [if_neg (by simp [h1]), if_pos ⟨h1, h2⟩]
    exact ⟨rfl, Or.inl rfl⟩
  · by_cases hk : cfg.RootCAPrivateKey = ""
    · rw [if_pos ⟨h1, hk⟩]
      exact ⟨rfl, Or.inl rfl⟩
    · rw [if_neg (by simp [hk]), if_neg (by simp [h1, hk]), if_pos ⟨h1, h2⟩]
      exact ⟨rfl, Or.inr rfl⟩

/-- Forward evaluation of the v0.3 `GenerateFromRoot` when its collaborators
succeed: no Root artifact, a leaf and client built from the v0.3 templates
and signed by the supplied root key. -/
theorem generateFromRoot_eval (env : Env) (now : Time) (cfg : ConfigV3)
    (rootT : Certificate) (rootKey : PrivKey) (ls cs lk ck : Nat)
    (h0 : env.randInt 0 = .ok ls) (h1 : env.randInt 1 = .ok cs)
    (hk0 : env.genKey 0 = .ok lk) (hk1 : env.genKey 1 = .ok ck)
    (hc0 : env.createCert 0 = none) (hc1 : env.createCert 1 = none) :
    GenerateFromRoot env now cfg rootT rootKey =
      (⟨2, 2, 2, 0⟩,
       .ret (some ⟨none,
         ⟨⟨"EC PRIVATE KEY", marshalECPrivateKey ⟨lk, .ecdsa⟩⟩,
          ⟨"CERTIFICATE", .cert ⟨mkLeafTemplateV3 now cfg.Org ls (now + cfg.ValidFor)
            (partitionHosts env.parseIP cfg.Hosts), rootT.serialNumber, lk, rootKey.id⟩⟩,
          pemEncode ⟨"EC PRIVATE KEY", marshalECPrivateKey ⟨lk, .ecdsa⟩⟩,
          pemEncode ⟨"CERTIFICATE", .cert ⟨mkLeafTemplateV3 now cfg.Org ls (now + cfg.ValidFor)
            (partitionHosts env.parseIP cfg.Hosts), rootT.serialNumber, lk, rootKey.id⟩⟩⟩,
         ⟨⟨"EC PRIVATE KEY", marshalECPrivateKey ⟨ck, .ecdsa⟩⟩,
          ⟨"CERTIFICATE", .cert ⟨mkClientTemplateV3 now cfg.Org cfg.ClientCommonName cs (now + cfg.ValidFor)
            (partitionHosts env.parseIP cfg.Hosts), rootT.serialNumber, ck, rootKey.id⟩⟩,
          pemEncode ⟨"EC PRIVATE KEY", marshalECPrivateKey ⟨ck, .ecdsa⟩⟩,
          pemEncode ⟨"CERTIFICATE", .cert ⟨mkClientTemplateV3 now cfg.Org cfg.ClientCommonName cs (now + cfg.ValidFor)
            (partitionHosts env.parseIP cfg.Hosts), rootT.serialNumber, ck, rootKey.id⟩⟩⟩⟩) none) := by
  simp only [GenerateFromRoot, genCertV3, h0, h1, hk0, hk1, hc0, hc1]

/-! ### Run-level extractors and success predicates -/

/-- The bundle carried by a result, if any. -/
def bundleOf (r : Counters × GoResult Certs) : Option Certs :=
  match r.2 with
  | .ret v _ => v
  | .fatal _ => none

/-- The bundle of a `Generate` run. -/
def runBundle (env : Env) (now : Time) (cfg : Config) : Option Certs :=
  bundleOf (Generate env now cfg)

/-- The root certificate DER of a `Generate` run. -/
def runRootDer (env : Env) (now : Time) (cfg : Config) : Option DerCert :=
  (runBundle env now cfg).bind rootDerOf

/-- The leaf certificate DER of a `Generate` run. -/
def runLeafDer (env : Env) (now : Time) (cfg : Config) : Option DerCert :=
  (runBundle env now cfg).bind leafDerOf

/-- The client certificate DER of a `Generate` run. -/
def runClientDer (env : Env) (now : Time) (cfg : Config) : Option DerCert :=
  (runBundle env now cfg).bind clientDerOf

/-- The bundle of a v0.3 `GenerateFromRoot` run. -/
def runBundleV3 (env : Env) (now : Time) (cfg : ConfigV3)
    (rootT : Certificate) (rootKey : PrivKey) : Option Certs :=
  bundleOf (GenerateFromRoot env now cfg rootT rootKey)

/-- The leaf certificate DER of a v0.3 run. -/
def runLeafDerV3 (env : Env) (now : Time) (cfg : ConfigV3)
    (rootT : Certificate) (rootKey : PrivKey) : Option DerCert :=
  (runBundleV3 env now cfg rootT rootKey).bind leafDerOf

/-- The client certificate DER of a v0.3 run. -/
def runClientDerV3 (env : Env) (now : Time) (cfg : ConfigV3)
    (rootT : Certificate) (rootKey : PrivKey) : Option DerCert :=
  (runBundleV3 env now cfg rootT rootKey).bind clientDerOf

/-- The configuration selects the fresh-mint path and every collaborator
call of that path succeeds. -/
def FreshSucceeds (env : Env) (cfg : Config) : Prop :=
  cfg.RootCACert = "" ∧ cfg.RootCAPrivateKey = "" ∧
  isError (env.randInt 0) = false ∧ isError (env.randInt 1) = false ∧
  isError (env.randInt 2) = false ∧
  isError (env.genKey 0) = false ∧ isError (env.genKey 1) = false ∧
  isError (env.genKey 2) = false ∧
  env.createCert 0 = none ∧ env.createCert 1 = none ∧ env.createCert 2 = none

/-- The configuration selects the CA-reuse path, the on-disk material loads
and parses as an ECDSA key, and every collaborator call succeeds. -/
def ReuseSucceeds (env : Env) (cfg : Config) : Prop :=
  cfg.RootCACert ≠ "" ∧ cfg.RootCAPrivateKey ≠ "" ∧ cfg.RootValidFor = 0 ∧
  isError (env.randInt 0) = false ∧ isError (env.randInt 1) = false ∧
  (loadedRootTemplate env cfg).isSome = true ∧
  (loadedKey env cfg).map (fun k => k.algo) = some .ecdsa ∧
  isError (env.genKey 0) = false ∧ isError (env.genKey 1) = false ∧
  env.createCert 0 = none ∧ env.createCert 1 = none

/-- Every collaborator call of a v0.3 `GenerateFromRoot` run succeeds. -/
def V3Succeeds (env : Env) : Prop :=
  isError (env.randInt 0) = false ∧ isError (env.randInt 1) = false ∧
  isError (env.genKey 0) = false ∧ isError (env.genKey 1) = false ∧
  env.createCert 0 = none ∧ env.createCert 1 = none

/-- An `Except` that is not an error holds a value. -/
theorem exists_ok_of_isError_false {ε α : Type} (x : Except ε α) (h : isError x = false) :
    ∃ v, x = .ok v := by
  cases x with
  | error e => simp [isError] at h
  | ok v => exact ⟨v, rfl⟩

/-- The DNS side of the host partition is the sublist of hosts that do not
parse as IPs, in their original order. -/
theorem partitionHosts_fst (p : String → Option IPAddr) (hs : List String) :
    (partitionHosts p hs).1 = hs.filter (fun h => (p h).isNone) := by
  induction hs with
  | nil => rfl
  | cons h t ih =>
    simp only [partitionHosts, List.filter]
    cases hp : p h <;> simp [hp, ih]

/-- The IP side of the host partition collects the parses of the hosts that
do parse as IPs, in their original order. -/
theorem partitionHosts_snd (p : String → Option IPAddr) (hs : List String) :
    (partitionHosts p hs).2 = hs.filterMap p := by
  induction hs with
  | nil => rfl
  | cons h t ih =>
    simp only [partitionHosts, List.filterMap]
    cases hp : p h <;> simp [hp, ih]

/-- Unpacking `FreshSucceeds`: the run evaluates to the fresh-mint bundle
of the oracle draws. -/
theorem generate_fresh_of_succeeds (env : Env) (now : Time) (cfg : Config)
    (h : FreshSucceeds env cfg) :
    ∃ ls cs rs rk lk ck,
      env.randInt 0 = .ok ls ∧ env.randInt 1 = .ok cs ∧ env.randInt 2 = .ok rs ∧
      env.genKey 0 = .ok rk ∧ env.genKey 1 = .ok lk ∧ env.genKey 2 = .ok ck ∧
      Generate env now cfg =
        (⟨3, 3, 3, 0⟩,
         .ret (some ⟨some (mkIssued (mkRootTemplate now cfg.Org rs (now + effRootValidFor cfg)) rs ⟨rk, .ecdsa⟩ rk),
                     mkIssued (mkLeafTemplate now cfg.Org ls (now + effLeafValidFor cfg)
                       (partitionHosts env.parseIP cfg.Hosts)) rs ⟨lk, .ecdsa⟩ rk,
                     mkIssued (mkClientTemplate now cfg.Org cs (now + effLeafValidFor cfg)
                       (partitionHosts env.parseIP cfg.Hosts)) rs ⟨ck, .ecdsa⟩ rk⟩) none) := by
  obtain ⟨hca, hcak, h0, h1, h2, hk0, hk1, hk2, hc0, hc1, hc2⟩ := h
  obtain ⟨ls, h0⟩ := exists_ok_of_isError_false _ h0
  obtain ⟨cs, h1⟩ := exists_ok_of_isError_false _ h1
  obtain ⟨rs, h2⟩ := exists_ok_of_isError_false _ h2
  obtain ⟨rk, hk0⟩ := exists_ok_of_isError_false _ hk0
  obtain ⟨lk, hk1⟩ := exists_ok_of_isError_false _ hk1
  obtain ⟨ck, hk2⟩ := exists_ok_of_isError_false _ hk2
  exact ⟨ls, cs, rs, rk, lk, ck, h0, h1, h2, hk0, hk1, hk2,
    generate_fresh_eval env now cfg ls cs rs rk lk ck hca hcak
      h0 h1 h2 hk0 hk1 hk2 hc0 hc1 hc2⟩

/-- Unpacking `ReuseSucceeds`: the run evaluates to the reuse bundle built
from the loaded blocks and the oracle draws. -/
theorem generate_reuse_of_succeeds (env : Env) (now : Time) (cfg : Config)
    (h : ReuseSucceeds env cfg) :
    ∃ ls cs lk ck certBlock keyBlock rootT rawKey,
      loadedCertBlock env cfg = some certBlock ∧
      loadedKeyBlock env cfg = some keyBlock ∧
      loadedRootTemplate env cfg = some rootT ∧
      loadedKey env cfg = some rawKey ∧
      env.randInt 0 = .ok ls ∧ env.randInt 1 = .ok cs ∧
      env.genKey 0 = .ok lk ∧ env.genKey 1 = .ok ck ∧
      Generate env now cfg =
        (⟨2, 2, 2, 1⟩,
         .ret (some ⟨some ⟨keyBlock, certBlock, .der keyBlock.bytes, .der certBlock.bytes⟩,
                     mkIssued (mkLeafTemplate now cfg.Org ls (now + effLeafValidFor cfg)
                       (partitionHosts env.parseIP cfg.Hosts)) rootT.serialNumber ⟨lk, .ecdsa⟩ rawKey.id,
                     mkIssued (mkClientTemplate now cfg.Org cs (now + effLeafValidFor cfg)
                       (partitionHosts env.parseIP cfg.Hosts)) rootT.serialNumber ⟨ck, .ecdsa⟩ rawKey.id⟩) none) := by
  obtain ⟨hca, hcak, hrv, h0, h1, hrt, hlk, hk0, hk1, hc0, hc1⟩ := h
  obtain ⟨ls, h0⟩ := exists_ok_of_isError_false _ h0
  obtain ⟨cs, h1⟩ := exists_ok_of_isError_false _ h1
  obtain ⟨lk, hk0⟩ := exists_ok_of_isError_false _ hk0
  obtain ⟨ck, hk1⟩ := exists_ok_of_isError_false _ hk1
  rcases hcb : loadedCertBlock env cfg with _ | certBlock
  · rw [loadedRootTemplate, hcb] at hrt; simp at hrt
  rcases hrt2 : loadedRootTemplate env cfg with _ | rootT
  · rw [hrt2] at hrt; simp at hrt
  rcases hkb : loadedKeyBlock env cfg with _ | keyBlock
  · rw [loadedKey, hkb] at hlk; simp at hlk
  rcases hlk2 : loadedKey env cfg with _ | rawKey
  · rw [hlk2] at hlk; simp at hlk
  have halgo : rawKey.algo = .ecdsa := by rw [hlk2] at hlk; simpa using hlk
  obtain ⟨certdata, hrf, hpd⟩ : ∃ d, env.readFile cfg.RootCACert = .ok d ∧
      pemDecode d = some certBlock := by
    unfold loadedCertBlock at hcb
    rcases hf : env.readFile cfg.RootCACert with e | d
    · rw [hf] at hcb; simp [Except.toOption] at hcb
    · rw [hf] at hcb; simp [Except.toOption] at hcb; exact ⟨d, rfl, hcb⟩
  obtain ⟨keydata, hrfk, hpdk⟩ : ∃ d, env.readFile cfg.RootCAPrivateKey = .ok d ∧
      pemDecode d = some keyBlock := by
    unfold loadedKeyBlock at hkb
    rcases hf : env.readFile cfg.RootCAPrivateKey with e | d
    · rw [hf] at hkb; simp [Except.toOption] at hkb
    · rw [hf] at hkb; simp [Except.toOption] at hkb; exact ⟨d, rfl, hkb⟩
  have hpc : parseCertificate certBlock.bytes = .ok rootT := by
    rw [loadedRootTemplate, hcb] at hrt2
    simp only [Option.some_bind] at hrt2
    rcases hp : parseCertificate certBlock.bytes with e | t
    · rw [hp] at hrt2; simp [Except.toOption] at hrt2
    · rw [hp] at hrt2; simp [Except.toOption] at hrt2; rw [hrt2]
  have hppk : parsePKCS8PrivateKey keyBlock.bytes = .ok rawKey := by
    rw [loadedKey, hkb] at hlk2
    simp only [Option.some_bind] at hlk2
    rcases hp : parsePKCS8PrivateKey keyBlock.bytes with e | k
    · rw [hp] at hlk2; simp [Except.toOption] at hlk2
    · rw [hp] at hlk2; simp [Except.toOption] at hlk2; rw [hlk2]
  exact ⟨ls, cs, lk, ck, certBlock, keyBlock, rootT, rawKey, rfl, rfl, rfl, rfl,
    h0, h1, hk0, hk1,
    generate_reuse_eval env now cfg ls cs lk ck certdata keydata certBlock keyBlock
      rootT rawKey hca hcak hrv h0 h1 hrf hpd hpc hrfk hpdk hppk halgo hk0 hk1 hc0 hc1⟩

/-! ### Claim C1 -/

/-- The properties C1 asserts of a fresh-mint bundle: three certificates;
the CA is an authority with certificate-signing key usage, server+client
extended usage, validity `[now, now + root validity)`, self-signed (issuer
serial is its own serial, signer is its own subject key) with the freshly
generated root key (the first `GenerateKey` draw); leaf and client carry
the CA's serial as issuer serial and are signed by the same root key. -/
def FreshMintBundleSpec (env : Env) (now : Time) (cfg : Config) : Prop :=
  (runBundle env now cfg).isSome = true ∧
  (runRootDer env now cfg).isSome = true ∧
  (runLeafDer env now cfg).isSome = true ∧
  (runClientDer env now cfg).isSome = true ∧
  (runRootDer env now cfg).map (fun d => d.tbs.isCA) = some true ∧
  (runRootDer env now cfg).map (fun d => d.tbs.keyUsage &&& kuCertSign) = some kuCertSign ∧
  (runRootDer env now cfg).map (fun d => d.tbs.extKeyUsage) = some [.serverAuth, .clientAuth] ∧
  (runRootDer env now cfg).map (fun d => d.tbs.notBefore) = some now ∧
  (runRootDer env now cfg).map (fun d => d.tbs.notAfter) = some (now + effRootValidFor cfg) ∧
  (runRootDer env now cfg).map (fun d => d.subjectPubKey) = (env.genKey 0).toOption ∧
  (runRootDer env now cfg).map (fun d => d.signedBy) = (env.genKey 0).toOption ∧
  (runRootDer env now cfg).map (fun d => d.issuerSerial) =
    (runRootDer env now cfg).map (fun d => d.tbs.serialNumber) ∧
  (runLeafDer env now cfg).map (fun d => d.issuerSerial) =
    (runRootDer env now cfg).map (fun d => d.tbs.serialNumber) ∧
  (runClientDer env now cfg).map (fun d => d.issuerSerial) =
    (runRootDer env now cfg).map (fun d => d.tbs.serialNumber) ∧
  (runLeafDer env now cfg).map (fun d => d.signedBy) = (env.genKey 0).toOption ∧
  (runClientDer env now cfg).map (fun d => d.signedBy) = (env.genKey 0).toOption

/-- C1: for every configuration with no CA-reuse whose collaborators all
succeed, `Generate` returns three certificates; the CA descriptor is an
authority whose key usage includes certificate-signing, with extended key
usage `{server-auth, client-auth}` and validity `[now, now+RootValidFor)`
(with the documented default when the duration is zero), self-signed with
its own freshly generated key; leaf and client are issued against that CA
template, so their issuer serial equals the CA certificate's serial number
and their signatures come from the CA key. -/
theorem C1_fresh_mint (env : Env) (now : Time) (cfg : Config)
    (h : FreshSucceeds env cfg) : FreshMintBundleSpec env now cfg := by
  obtain ⟨ls, cs, rs, rk, lk, ck, h0, h1, h2, hk0, hk1, hk2, hgen⟩ :=
    generate_fresh_of_succeeds env now cfg h
  simp [FreshMintBundleSpec, runBundle, runRootDer, runLeafDer, runClientDer, bundleOf,
    rootDerOf, leafDerOf, clientDerOf, certDer, mkIssued, mkRootTemplate, mkLeafTemplate,
    mkClientTemplate, hgen, hk0, kuDigitalSignature, kuCertSign]
  exact ⟨by decide, rfl⟩

/-- Witness for C1 at a concrete healthy environment. -/
theorem C1_fresh_mint_witness :
    FreshSucceeds envA cfgA ∧ FreshMintBundleSpec envA 0 cfgA :=
  ⟨by unfold FreshSucceeds; decide, C1_fresh_mint envA 0 cfgA (by unfold FreshSucceeds; decide)⟩

/-! ### Claim C2 -/

/-- C2 counterexample: on a CA-reuse run that decodes successfully, the
bundle returned by `Generate` does contain a CA artifact — its `Root` field
is populated (with the loaded material), not absent. -/
theorem C2_counterexample :
    (runBundle envReuse 0 cfgReuse).isSome = true ∧
    ((runBundle envReuse 0 cfgReuse).bind Certs.Root).isSome = true ∧
    ¬((runBundle envReuse 0 cfgReuse).bind Certs.Root = none) := by
  unfold runBundle
  decide

/-- What actually holds on the CA-reuse path: the `Root` field of the
returned bundle holds exactly the caller-supplied PEM blocks (with their
raw DER bytes, not a fresh armored rendering), while the leaf and client
are signed with the key parsed from the supplied CA private-key material
against the parsed parent certificate. -/
def ReuseBundleSpec (env : Env) (now : Time) (cfg : Config) : Prop :=
  (runBundle env now cfg).isSome = true ∧
  ((runBundle env now cfg).bind Certs.Root).isSome = true ∧
  (runBundle env now cfg).bind Certs.Root =
    (loadedKeyBlock env cfg).bind (fun kb => (loadedCertBlock env cfg).map
      (fun cb => ⟨kb, cb, .der kb.bytes, .der cb.bytes⟩)) ∧
  (runLeafDer env now cfg).map (fun d => d.signedBy) = (loadedKey env cfg).map (fun k => k.id) ∧
  (runClientDer env now cfg).map (fun d => d.signedBy) = (loadedKey env cfg).map (fun k => k.id) ∧
  (runLeafDer env now cfg).map (fun d => d.issuerSerial) =
    (loadedRootTemplate env cfg).map (fun t => t.serialNumber) ∧
  (runClientDer env now cfg).map (fun d => d.issuerSerial) =
    (loadedRootTemplate env cfg).map (fun t => t.serialNumber)

/-- C2 amended: on every successful CA-reuse run the bundle's `Root` holds
the caller-supplied CA material rather than being absent (the CLI, not the
library, is what skips re-emitting it), and leaf and client are signed with
the key parsed from the supplied CA private-key material. -/
theorem C2_reuse_bundle (env : Env) (now : Time) (cfg : Config)
    (h : ReuseSucceeds env cfg) : ReuseBundleSpec env now cfg := by
  obtain ⟨ls, cs, lk, ck, certBlock, keyBlock, rootT, rawKey,
    hcb, hkb, hrt2, hlk2, h0, h1, hk0, hk1, hgen⟩ := generate_reuse_of_succeeds env now cfg h
  simp [ReuseBundleSpec, runBundle, runRootDer, runLeafDer, runClientDer, bundleOf,
    rootDerOf, leafDerOf, clientDerOf, certDer, mkIssued, mkLeafTemplate, mkClientTemplate,
    hgen, hcb, hkb, hrt2, hlk2]

/-- Witness for the amended C2 at the concrete on-disk CA. -/
theorem C2_reuse_bundle_witness :
    ReuseSucceeds envReuse cfgReuse ∧ ReuseBundleSpec envReuse 0 cfgReuse :=
  ⟨by unfold ReuseSucceeds loadedRootTemplate loadedCertBlock loadedKey loadedKeyBlock; decide,
   C2_reuse_bundle envReuse 0 cfgReuse
     (by unfold ReuseSucceeds loadedRootTemplate loadedCertBlock loadedKey loadedKeyBlock; decide)⟩

/-! ### Claim C3 -/

/-- C3 counterexample: a randomness failure while drawing the leaf serial
number does not propagate as an error return — `Generate` terminates the
process through `log.Fatalf` instead. -/
theorem C3_counterexample :
    (Generate envFatal 0 cfgA).2 =
      .fatal "failed to generate serial number: entropy source unavailable" := by
  decide

/-- C3 amended: every failure propagates immediately as an error return
with a nil bundle — so a failure after the CA step discards the CA artifact
— except that a randomness failure while drawing the leaf or client serial
number terminates the process itself via `log.Fatalf` instead of returning. -/
theorem C3_error_propagation (env : Env) (now : Time) (cfg : Config)
    (c : Counters) (r : GoResult Certs)
    (hgen : Generate env now cfg = (c, r)) :
    (∀ v e, r = .ret v (some e) → v = none) ∧
    (∀ e, r = .fatal e → (isError (env.randInt 0) || isError (env.randInt 1)) = true) := by
  have hnp := generate_no_partial env now cfg
  have hf := generate_fatal_only_serial env now cfg
  rw [hgen] at hnp hf
  refine ⟨?_, ?_⟩
  · intro v e hv
    rw [show (c, r).2 = r from rfl, hv] at hnp
    exact hnp
  · intro e he
    exact hf e (by rw [show (c, r).2 = r from rfl, he])

/-- Witness for the amended C3: at the failing-randomness environment the
run ends in a process abort, and the abort is indeed attributable to a
serial-draw failure. -/
theorem C3_error_propagation_witness :
    Generate envFatal 0 cfgA =
      (⟨1, 0, 0, 0⟩, .fatal "failed to generate serial number: entropy source unavailable") ∧
    (isError (envFatal.randInt 0) || isError (envFatal.randInt 1)) = true :=
  ⟨by decide,
   (C3_error_propagation envFatal 0 cfgA ⟨1, 0, 0, 0⟩
      (.fatal "failed to generate serial number: entropy source unavailable") (by decide)).2
     "failed to generate serial number: entropy source unavailable" rfl⟩

/-! ### Claim C4 -/

/-- C4: an invalid configuration — exactly one of the CA handles set, or a
non-zero root validity combined with CA-reuse — makes `Generate` return a
configuration error before any cryptographic work: every collaborator call
counter (random draws, key generations, certificate creations, key parses)
is still zero, and no bundle is returned. -/
theorem C4_validation_before_crypto (env : Env) (now : Time) (cfg : Config)
    (h : (cfg.RootCACert ≠ "" ∧ cfg.RootCAPrivateKey = "") ∨
         (cfg.RootCACert = "" ∧ cfg.RootCAPrivateKey ≠ "") ∨
         (cfg.RootCACert ≠ "" ∧ cfg.RootValidFor ≠ 0)) :
    (Generate env now cfg).1 = ⟨0, 0, 0, 0⟩ ∧
    ((Generate env now cfg).2 =
        .ret none (some "gencert: must set both RootCACert and RootCAPrivateKey, or neither") ∨
     (Generate env now cfg).2 =
        .ret none (some "gencert: cannot set RootValidFor when loading root cert from disk")) :=
  generate_config_error_eval env now cfg h

/-- Witness for C4: a configuration with only the certificate handle set. -/
theorem C4_validation_before_crypto_witness :
    (cfgHalf.RootCACert ≠ "" ∧ cfgHalf.RootCAPrivateKey = "") ∧
    (Generate envA 0 cfgHalf).1 = ⟨0, 0, 0, 0⟩ ∧
    ((Generate envA 0 cfgHalf).2 =
        .ret none (some "gencert: must set both RootCACert and RootCAPrivateKey, or neither") ∨
     (Generate envA 0 cfgHalf).2 =
        .ret none (some "gencert: cannot set RootValidFor when loading root cert from disk")) :=
  ⟨by decide, C4_validation_before_crypto envA 0 cfgHalf (Or.inl (by decide))⟩

/-! ### Claim C5 -/

/-- C5's property of a bundle: the leaf's DNS names are exactly the host
entries that do not parse as IPs, in order; its IP addresses are exactly
the parses of the entries that do, in order; and the client certificate
carries the identical SAN lists. -/
def SanSpec (env : Env) (now : Time) (cfg : Config) : Prop :=
  (runLeafDer env now cfg).isSome = true ∧
  (runLeafDer env now cfg).map (fun d => d.tbs.dnsNames) =
    some (cfg.Hosts.filter (fun h => (env.parseIP h).isNone)) ∧
  (runLeafDer env now cfg).map (fun d => d.tbs.ipAddresses) =
    some (cfg.Hosts.filterMap env.parseIP) ∧
  (runClientDer env now cfg).map (fun d => d.tbs.dnsNames) =
    (runLeafDer env now cfg).map (fun d => d.tbs.dnsNames) ∧
  (runClientDer env now cfg).map (fun d => d.tbs.ipAddresses) =
    (runLeafDer env now cfg).map (fun d => d.tbs.ipAddresses)

/-- C5: on every successful run (fresh-mint or CA-reuse), each host entry
that parses as an IP literal lands in the IP list of both leaf and client
(and not in their DNS lists), every other entry lands in the DNS list of
both, order is preserved, and the two certificates' SAN sets coincide. -/
theorem C5_host_partition (env : Env) (now : Time) (cfg : Config)
    (h : FreshSucceeds env cfg ∨ ReuseSucceeds env cfg) : SanSpec env now cfg := by
  rcases h with h | h
  · obtain ⟨ls, cs, rs, rk, lk, ck, h0, h1, h2, hk0, hk1, hk2, hgen⟩ :=
      generate_fresh_of_succeeds env now cfg h
    simp [SanSpec, runBundle, runLeafDer, runClientDer, bundleOf, leafDerOf, clientDerOf,
      certDer, mkIssued, mkLeafTemplate, mkClientTemplate, hgen,
      partitionHosts_fst, partitionHosts_snd]
  · obtain ⟨ls, cs, lk, ck, certBlock, keyBlock, rootT, rawKey,
      hcb, hkb, hrt2, hlk2, h0, h1, hk0, hk1, hgen⟩ := generate_reuse_of_succeeds env now cfg h
    simp [SanSpec, runBundle, runLeafDer, runClientDer, bundleOf, leafDerOf, clientDerOf,
      certDer, mkIssued, mkLeafTemplate, mkClientTemplate, hgen,
      partitionHosts_fst, partitionHosts_snd]

/-- Witness for C5: one DNS host and one IP host through a healthy fresh
environment. -/
theorem C5_host_partition_witness :
    (FreshSucceeds envA cfgHosts ∨ ReuseSucceeds envA cfgHosts) ∧ SanSpec envA 0 cfgHosts :=
  ⟨Or.inl (by unfold FreshSucceeds; decide),
   C5_host_partition envA 0 cfgHosts (Or.inl (by unfold FreshSucceeds; decide))⟩

/-! ### Claim C6 -/

/-- C6: in the self-signed call (descriptor and parent are the same
certificate value, `leaf == parent` in Go), supplying any non-nil signing
key makes `genCert` fail with the contract-violation error instead of
silently substituting; and when no signer is supplied, the self-sign
succeeds using the subject's own freshly generated key as the signer and
as the subject public key. -/
theorem C6_selfsign_contract (env : Env) (c : Counters) (leaf parent : Certificate)
    (kid : Nat) (hk : env.genKey c.nKey = .ok kid) :
    (∀ k : PrivKey, genCert env c leaf parent true (some k) =
        ({c with nKey := c.nKey + 1},
         .ret none (some "signing key must be nil when generating root cert"))) ∧
    (∀ c' cert key, genCert env c leaf parent true none = (c', .ret (some (cert, key)) none) →
        key = ⟨kid, .ecdsa⟩ ∧
        (certDer cert).map (fun d => d.signedBy) = some kid ∧
        (certDer cert).map (fun d => d.subjectPubKey) = some kid) := by
  constructor
  · intro k
    unfold genCert
    rw [hk]
    simp
  · intro c' cert key h
    unfold genCert at h
    rw [hk] at h
    cases hcc : env.createCert c.nCreate with
    | some e => simp [hcc] at h
    | none =>
      simp [hcc] at h
      obtain ⟨-, hcert, hkey⟩ := h
      subst hcert
      exact ⟨hkey.symm, by simp [certDer, mkIssued], by simp [certDer, mkIssued]⟩

/-- Witness for C6: the contract error on a supplied signer, and the
self-signed success shape with no signer, at a concrete environment. -/
theorem C6_selfsign_contract_witness :
    envA.genKey 0 = .ok 200 ∧
    genCert envA ⟨0, 0, 0, 0⟩ caTemplateR caTemplateR true (some caKeyR) =
      (⟨0, 1, 0, 0⟩, .ret none (some "signing key must be nil when generating root cert")) ∧
    ((⟨200, .ecdsa⟩ : PrivKey) = ⟨200, .ecdsa⟩ ∧
     (certDer (mkIssued caTemplateR 77 ⟨200, .ecdsa⟩ 200)).map (fun d => d.signedBy) = some 200 ∧
     (certDer (mkIssued caTemplateR 77 ⟨200, .ecdsa⟩ 200)).map (fun d => d.subjectPubKey) = some 200) :=
  ⟨rfl,
   (C6_selfsign_contract envA ⟨0, 0, 0, 0⟩ caTemplateR caTemplateR 200 rfl).1 caKeyR,
   (C6_selfsign_contract envA ⟨0, 0, 0, 0⟩ caTemplateR caTemplateR 200 rfl).2
     ⟨0, 1, 1, 0⟩ (mkIssued caTemplateR 77 ⟨200, .ecdsa⟩ 200) ⟨200, .ecdsa⟩ (by decide)⟩

/-! ### Claim C7 -/

/-- C7: a CA-reuse run whose private-key material decodes as PEM and parses
as a private key of any algorithm other than ECDSA fails with the
unsupported-key-type error, producing no leaf or client certificate — the
result carries no bundle, and no key was generated and no certificate
created (those counters are zero). -/
theorem C7_unsupported_key_type (env : Env) (now : Time) (cfg : Config) (rawKey : PrivKey)
    (hca : cfg.RootCACert ≠ "") (hcak : cfg.RootCAPrivateKey ≠ "") (hrv : cfg.RootValidFor = 0)
    (h0 : isError (env.randInt 0) = false) (h1 : isError (env.randInt 1) = false)
    (hrt : (loadedRootTemplate env cfg).isSome = true)
    (hlk : loadedKey env cfg = some rawKey) (halgo : rawKey.algo ≠ .ecdsa) :
    Generate env now cfg =
      (⟨2, 0, 0, 1⟩,
       .ret none (some "could not parse private key as a *ecdsa.PrivateKey, use other parsing format")) := by
  obtain ⟨ls, h0⟩ := exists_ok_of_isError_false _ h0
  obtain ⟨cs, h1⟩ := exists_ok_of_isError_false _ h1
  rcases hcb : loadedCertBlock env cfg with _ | certBlock
  · rw [loadedRootTemplate, hcb] at hrt; simp at hrt
  rcases hrt2 : loadedRootTemplate env cfg with _ | rootT
  · rw [hrt2] at hrt; simp at hrt
  rcases hkb : loadedKeyBlock env cfg with _ | keyBlock
  · rw [loadedKey, hkb] at hlk; simp at hlk
  obtain ⟨certdata, hrf, hpd⟩ : ∃ d, env.readFile cfg.RootCACert = .ok d ∧
      pemDecode d = some certBlock := by
    unfold loadedCertBlock at hcb
    rcases hf : env.readFile cfg.RootCACert with e | d
    · rw [hf] at hcb; simp [Except.toOption] at hcb
    · rw [hf] at hcb; simp [Except.toOption] at hcb; exact ⟨d, rfl, hcb⟩
  obtain ⟨keydata, hrfk, hpdk⟩ : ∃ d, env.readFile cfg.RootCAPrivateKey = .ok d ∧
      pemDecode d = some keyBlock := by
    unfold loadedKeyBlock at hkb
    rcases hf : env.readFile cfg.RootCAPrivateKey with e | d
    · rw [hf] at hkb; simp [Except.toOption] at hkb
    · rw [hf] at hkb; simp [Except.toOption] at hkb; exact ⟨d, rfl, hkb⟩
  have hpc : parseCertificate certBlock.bytes = .ok rootT := by
    rw [loadedRootTemplate, hcb] at hrt2
    simp only [Option.some_bind] at hrt2
    rcases hp : parseCertificate certBlock.bytes with e | t
    · rw [hp] at hrt2; simp [Except.toOption] at hrt2
    · rw [hp] at hrt2; simp [Except.toOption] at hrt2; rw [hrt2]
  have hppk : parsePKCS8PrivateKey keyBlock.bytes = .ok rawKey := by
    rw [loadedKey, hkb] at hlk
    simp only [Option.some_bind] at hlk
    rcases hp : parsePKCS8PrivateKey keyBlock.bytes with e | k
    · rw [hp] at hlk; simp [Except.toOption] at hlk
    · rw [hp] at hlk; simp [Except.toOption] at hlk; rw [hlk]
  exact generate_reuse_badkey_eval env now cfg ls cs certdata keydata certBlock keyBlock
    rootT rawKey hca hcak hrv h0 h1 hrf hpd hpc hrfk hpdk hppk halgo

/-- Witness for C7: an on-disk RSA key in PKCS#8 form. -/
theorem C7_unsupported_key_type_witness :
    loadedKey envRSA cfgReuse = some ⟨7, .rsa⟩ ∧
    Generate envRSA 0 cfgReuse =
      (⟨2, 0, 0, 1⟩,
       .ret none (some "could not parse private key as a *ecdsa.PrivateKey, use other parsing format")) :=
  ⟨by unfold loadedKey loadedKeyBlock; decide,
   C7_unsupported_key_type envRSA 0 cfgReuse ⟨7, .rsa⟩ (by decide) (by decide) (by decide)
     (by decide) (by decide)
     (by unfold loadedRootTemplate loadedCertBlock; decide)
     (by unfold loadedKey loadedKeyBlock; decide) (by decide)⟩

/-! ### Claim C8 -/

/-- C8 counterexample: in the `GenerateFromRoot` builder the claim cites,
the leaf and client key usage is `{digital-signature, key-encipherment}`,
not `{digital-signature}` as claimed. -/
theorem C8_counterexample :
    (runLeafDerV3 envA 0 cfgV3 caTemplateR caKeyR).map (fun d => d.tbs.keyUsage) =
      some (kuKeyEncipherment ||| kuDigitalSignature) ∧
    (runClientDerV3 envA 0 cfgV3 caTemplateR caKeyR).map (fun d => d.tbs.keyUsage) =
      some (kuKeyEncipherment ||| kuDigitalSignature) ∧
    ¬(kuKeyEncipherment ||| kuDigitalSignature = kuDigitalSignature) := by
  unfold runLeafDerV3 runClientDerV3 runBundleV3
  decide

/-- The shared leaf/client template properties of the v0.2 `Generate`:
notBefore = now, notAfter = now + leaf validity, non-authority, key usage
exactly `{digital-signature}`, BasicConstraintsValid, server-auth vs
client-auth extended usage, subject organization from the config. -/
def LeafClientTemplateSpec (env : Env) (now : Time) (cfg : Config) : Prop :=
  (runLeafDer env now cfg).isSome = true ∧
  (runClientDer env now cfg).isSome = true ∧
  (runLeafDer env now cfg).map (fun d => d.tbs.notBefore) = some now ∧
  (runClientDer env now cfg).map (fun d => d.tbs.notBefore) = some now ∧
  (runLeafDer env now cfg).map (fun d => d.tbs.notAfter) = some (now + effLeafValidFor cfg) ∧
  (runClientDer env now cfg).map (fun d => d.tbs.notAfter) = some (now + effLeafValidFor cfg) ∧
  (runLeafDer env now cfg).map (fun d => d.tbs.isCA) = some false ∧
  (runClientDer env now cfg).map (fun d => d.tbs.isCA) = some false ∧
  (runLeafDer env now cfg).map (fun d => d.tbs.keyUsage) = some kuDigitalSignature ∧
  (runClientDer env now cfg).map (fun d => d.tbs.keyUsage) = some kuDigitalSignature ∧
  (runLeafDer env now cfg).map (fun d => d.tbs.basicConstraintsValid) = some true ∧
  (runClientDer env now cfg).map (fun d => d.tbs.basicConstraintsValid) = some true ∧
  (runLeafDer env now cfg).map (fun d => d.tbs.extKeyUsage) = some [.serverAuth] ∧
  (runClientDer env now cfg).map (fun d => d.tbs.extKeyUsage) = some [.clientAuth] ∧
  (runLeafDer env now cfg).map (fun d => d.tbs.subjectOrg) = some [cfg.Org] ∧
  (runClientDer env now cfg).map (fun d => d.tbs.subjectOrg) = some [cfg.Org]

/-- The corresponding properties of the v0.3 `GenerateFromRoot` builder:
identical except that key usage also includes key-encipherment, and the
client's subject common name is taken from the configuration. -/
def V3TemplateSpec (env : Env) (now : Time) (cfg : ConfigV3)
    (rootT : Certificate) (rootKey : PrivKey) : Prop :=
  (runLeafDerV3 env now cfg rootT rootKey).isSome = true ∧
  (runClientDerV3 env now cfg rootT rootKey).isSome = true ∧
  (runLeafDerV3 env now cfg rootT rootKey).map (fun d => d.tbs.notBefore) = some now ∧
  (runClientDerV3 env now cfg rootT rootKey).map (fun d => d.tbs.notBefore) = some now ∧
  (runLeafDerV3 env now cfg rootT rootKey).map (fun d => d.tbs.notAfter) = some (now + cfg.ValidFor) ∧
  (runClientDerV3 env now cfg rootT rootKey).map (fun d => d.tbs.notAfter) = some (now + cfg.ValidFor) ∧
  (runLeafDerV3 env now cfg rootT rootKey).map (fun d => d.tbs.isCA) = some false ∧
  (runClientDerV3 env now cfg rootT rootKey).map (fun d => d.tbs.isCA) = some false ∧
  (runLeafDerV3 env now cfg rootT rootKey).map (fun d => d.tbs.keyUsage) =
    some (kuKeyEncipherment ||| kuDigitalSignature) ∧
  (runClientDerV3 env now cfg rootT rootKey).map (fun d => d.tbs.keyUsage) =
    some (kuKeyEncipherment ||| kuDigitalSignature) ∧
  (runLeafDerV3 env now cfg rootT rootKey).map (fun d => d.tbs.basicConstraintsValid) = some true ∧
  (runClientDerV3 env now cfg rootT rootKey).map (fun d => d.tbs.basicConstraintsValid) = some true ∧
  (runLeafDerV3 env now cfg rootT rootKey).map (fun d => d.tbs.extKeyUsage) = some [.serverAuth] ∧
  (runClientDerV3 env now cfg rootT rootKey).map (fun d => d.tbs.extKeyUsage) = some [.clientAuth] ∧
  (runLeafDerV3 env now cfg rootT rootKey).map (fun d => d.tbs.subjectOrg) = some [cfg.Org] ∧
  (runClientDerV3 env now cfg rootT rootKey).map (fun d => d.tbs.subjectOrg) = some [cfg.Org] ∧
  (runClientDerV3 env now cfg rootT rootKey).map (fun d => d.tbs.subjectCommonName) =
    some cfg.ClientCommonName

/-- C8 amended: the leaf and client descriptors share notBefore = now,
notAfter = now + leaf validity, is-authority = false, and
BasicConstraintsValid; the server leaf is server-auth, the client is
client-auth, both carry the configured organization. Key usage is exactly
`{digital-signature}` in the v0.2 `Generate`, while the cited v0.3
`GenerateFromRoot` uses `{digital-signature, key-encipherment}` and is the
variant whose client common name equals `config.ClientCommonName`. -/
theorem C8_leaf_client_templates (env : Env) (now now3 : Time) (cfg : Config)
    (cfg3 : ConfigV3) (rootT : Certificate) (rootKey : PrivKey)
    (h : FreshSucceeds env cfg ∨ ReuseSucceeds env cfg) (h3 : V3Succeeds env) :
    LeafClientTemplateSpec env now cfg ∧ V3TemplateSpec env now3 cfg3 rootT rootKey := by
  constructor
  · rcases h with h | h
    · obtain ⟨ls, cs, rs, rk, lk, ck, h0, h1, h2, hk0, hk1, hk2, hgen⟩ :=
        generate_fresh_of_succeeds env now cfg h
      simp [LeafClientTemplateSpec, runBundle, runLeafDer, runClientDer, bundleOf,
        leafDerOf, clientDerOf, certDer, mkIssued, mkLeafTemplate, mkClientTemplate, hgen]
    · obtain ⟨ls, cs, lk, ck, certBlock, keyBlock, rootT2, rawKey,
        hcb, hkb, hrt2, hlk2, h0, h1, hk0, hk1, hgen⟩ := generate_reuse_of_succeeds env now cfg h
      simp [LeafClientTemplateSpec, runBundle, runLeafDer, runClientDer, bundleOf,
        leafDerOf, clientDerOf, certDer, mkIssued, mkLeafTemplate, mkClientTemplate, hgen]
  · obtain ⟨h0, h1, hk0, hk1, hc0, hc1⟩ := h3
    obtain ⟨ls, h0⟩ := exists_ok_of_isError_false _ h0
    obtain ⟨cs, h1⟩ := exists_ok_of_isError_false _ h1
    obtain ⟨lk, hk0⟩ := exists_ok_of_isError_false _ hk0
    obtain ⟨ck, hk1⟩ := exists_ok_of_isError_false _ hk1
    have hgen := generateFromRoot_eval env now3 cfg3 rootT rootKey ls cs lk ck
      h0 h1 hk0 hk1 hc0 hc1
    simp [V3TemplateSpec, runBundleV3, runLeafDerV3, runClientDerV3, bundleOf,
      leafDerOf, clientDerOf, certDer, mkLeafTemplateV3, mkClientTemplateV3, hgen]

/-- Witness for the amended C8 at concrete v0.2 and v0.3 runs. -/
theorem C8_leaf_client_templates_witness :
    (FreshSucceeds envA cfgA ∨ ReuseSucceeds envA cfgA) ∧ V3Succeeds envA ∧
    (LeafClientTemplateSpec envA 0 cfgA ∧ V3TemplateSpec envA 0 cfgV3 caTemplateR caKeyR) :=
  ⟨Or.inl (by unfold FreshSucceeds; decide), by unfold V3Succeeds; decide,
   C8_leaf_client_templates envA 0 0 cfgA cfgV3 caTemplateR caKeyR
     (Or.inl (by unfold FreshSucceeds; decide)) (by unfold V3Succeeds; decide)⟩

/-! ### Claim C9 -/

/-- C9: every certificate issued by `genCert` retains the typed blocks
("CERTIFICATE" and the "PRIVATE KEY" tag) together with their armored
renderings, produced by rendering each block exactly once, so the bytes
decode back to the very blocks retained, and the decoded certificate's
serial number, validity window and SAN lists equal the descriptor's. -/
theorem C9_issued_roundtrip (env : Env) (c : Counters) (leaf parent : Certificate)
    (samePtr : Bool) (sk : Option PrivKey) (c' : Counters) (cert : Cert) (key : PrivKey)
    (h : genCert env c leaf parent samePtr sk = (c', .ret (some (cert, key)) none)) :
    cert.Public.type = "CERTIFICATE" ∧
    cert.Private.type = "PRIVATE KEY" ∧
    cert.PublicBytes = pemEncode cert.Public ∧
    cert.PrivateBytes = pemEncode cert.Private ∧
    pemDecode cert.PublicBytes = some cert.Public ∧
    pemDecode cert.PrivateBytes = some cert.Private ∧
    ((pemDecode cert.PublicBytes).bind (fun b => (parseCertificate b.bytes).toOption)).map
      (fun t => t.serialNumber) = some leaf.serialNumber ∧
    ((pemDecode cert.PublicBytes).bind (fun b => (parseCertificate b.bytes).toOption)).map
      (fun t => t.notBefore) = some leaf.notBefore ∧
    ((pemDecode cert.PublicBytes).bind (fun b => (parseCertificate b.bytes).toOption)).map
      (fun t => t.notAfter) = some leaf.notAfter ∧
    ((pemDecode cert.PublicBytes).bind (fun b => (parseCertificate b.bytes).toOption)).map
      (fun t => t.dnsNames) = some leaf.dnsNames ∧
    ((pemDecode cert.PublicBytes).bind (fun b => (parseCertificate b.bytes).toOption)).map
      (fun t => t.ipAddresses) = some leaf.ipAddresses := by
  unfold genCert at h
  cases hk : env.genKey c.nKey with
  | error e => rw [hk] at h; simp at h
  | ok kid =>
    rw [hk] at h
    cases samePtr <;> rcases sk with _ | signer <;>
      cases hcc : env.createCert c.nCreate <;> simp [hcc] at h <;>
      obtain ⟨-, hcert, -⟩ := h <;> subst hcert <;>
      simp [mkIssued, pemEncode, pemDecode, parseCertificate, Except.toOption,
        marshalPKCS8PrivateKey]

/-- Witness for C9: the concrete self-signed issuance. -/
theorem C9_issued_roundtrip_witness :
    genCert envA ⟨0, 0, 0, 0⟩ caTemplateR caTemplateR true none =
      (⟨0, 1, 1, 0⟩, .ret (some (mkIssued caTemplateR 77 ⟨200, .ecdsa⟩ 200, ⟨200, .ecdsa⟩)) none) ∧
    (mkIssued caTemplateR 77 ⟨200, .ecdsa⟩ 200).Public.type = "CERTIFICATE" ∧
    (mkIssued caTemplateR 77 ⟨200, .ecdsa⟩ 200).PublicBytes =
      pemEncode (mkIssued caTemplateR 77 ⟨200, .ecdsa⟩ 200).Public ∧
    ((pemDecode (mkIssued caTemplateR 77 ⟨200, .ecdsa⟩ 200).PublicBytes).bind
      (fun b => (parseCertificate b.bytes).toOption)).map (fun t => t.serialNumber) =
        some caTemplateR.serialNumber :=
  have happ := C9_issued_roundtrip envA ⟨0, 0, 0, 0⟩ caTemplateR caTemplateR true none
    ⟨0, 1, 1, 0⟩ (mkIssued caTemplateR 77 ⟨200, .ecdsa⟩ 200) ⟨200, .ecdsa⟩ (by decide)
  ⟨by decide, happ.1, happ.2.2.1, happ.2.2.2.2.2.2.1⟩

/-! ### Claim C10 -/

/-- C10: on every successful run, a zero `LeafValidFor` is replaced by the
365-day default in both leaf and client, and — independently — a zero
`RootValidFor` on the fresh-mint path is replaced by the 365-day root
default; a zero duration therefore never yields an already-expired
certificate (notBefore = now stays strictly before
notAfter = now + 365 days). -/
theorem C10_zero_duration_defaults (env : Env) (now : Time) (cfg : Config)
    (h : FreshSucceeds env cfg ∨ ReuseSucceeds env cfg) :
    (cfg.LeafValidFor = 0 →
      (runLeafDer env now cfg).map (fun d => d.tbs.notAfter) = some (now + 365 * 24 * hour) ∧
      (runClientDer env now cfg).map (fun d => d.tbs.notAfter) = some (now + 365 * 24 * hour) ∧
      (runLeafDer env now cfg).map (fun d => d.tbs.notBefore) = some now ∧
      (runClientDer env now cfg).map (fun d => d.tbs.notBefore) = some now) ∧
    (cfg.RootCAPrivateKey = "" → cfg.RootValidFor = 0 →
      (runRootDer env now cfg).map (fun d => d.tbs.notAfter) = some (now + 365 * 24 * hour) ∧
      (runRootDer env now cfg).map (fun d => d.tbs.notBefore) = some now) ∧
    now < now + 365 * 24 * hour := by
  have hlt : now < now + 365 * 24 * hour := by
    have hpos : (0 : Int) < 365 * 24 * hour := by norm_num [hour]
    linarith
  rcases h with h | h
  · obtain ⟨ls, cs, rs, rk, lk, ck, h0, h1, h2, hk0, hk1, hk2, hgen⟩ :=
      generate_fresh_of_succeeds env now cfg h
    refine ⟨?_, ?_, hlt⟩
    · intro hleaf0
      simp [runBundle, runLeafDer, runClientDer, bundleOf, leafDerOf, clientDerOf,
        certDer, mkIssued, mkLeafTemplate, mkClientTemplate, hgen,
        effLeafValidFor, hleaf0, defaultValidity]
    · intro hfresh hroot0
      simp [runBundle, runRootDer, bundleOf, rootDerOf, certDer, mkIssued, mkRootTemplate,
        hgen, effRootValidFor, hroot0, defaultValidity]
  · obtain ⟨ls, cs, lk, ck, certBlock, keyBlock, rootT, rawKey,
      hcb, hkb, hrt2, hlk2, h0, h1, hk0, hk1, hgen⟩ := generate_reuse_of_succeeds env now cfg h
    have hcak : cfg.RootCAPrivateKey ≠ "" := h.2.1
    refine ⟨?_, fun hfresh _ => absurd hfresh hcak, hlt⟩
    intro hleaf0
    simp [runBundle, runLeafDer, runClientDer, bundleOf, leafDerOf, clientDerOf,
      certDer, mkIssued, mkLeafTemplate, mkClientTemplate, hgen,
      effLeafValidFor, hleaf0, defaultValidity]

/-- Witness for C10 at the all-defaults configuration, where both
zero-duration conditionals fire. -/
theorem C10_zero_duration_defaults_witness :
    (FreshSucceeds envA cfgA ∨ ReuseSucceeds envA cfgA) ∧
    ((cfgA.LeafValidFor = 0 →
       (runLeafDer envA 0 cfgA).map (fun d => d.tbs.notAfter) = some (0 + 365 * 24 * hour) ∧
       (runClientDer envA 0 cfgA).map (fun d => d.tbs.notAfter) = some (0 + 365 * 24 * hour) ∧
       (runLeafDer envA 0 cfgA).map (fun d => d.tbs.notBefore) = some 0 ∧
       (runClientDer envA 0 cfgA).map (fun d => d.tbs.notBefore) = some 0) ∧
     (cfgA.RootCAPrivateKey = "" → cfgA.RootValidFor = 0 →
       (runRootDer envA 0 cfgA).map (fun d => d.tbs.notAfter) = some (0 + 365 * 24 * hour) ∧
       (runRootDer envA 0 cfgA).map (fun d => d.tbs.notBefore) = some 0) ∧
     (0 : Time) < 0 + 365 * 24 * hour) :=
  ⟨Or.inl (by unfold FreshSucceeds; decide),
   C10_zero_duration_defaults envA 0 cfgA (Or.inl (by unfold FreshSucceeds; decide))⟩

end GenCert
